import Mathlib

/-!
Shallow embedding of `src/01_superstore_analysis/notebooks/superstore_analysis.py`,
a single-run batch pipeline: load a tabular dataset, normalize it, compute KPIs,
build three aggregation-backed charts, and assemble an HTML dashboard.

Modelling conventions:
* Numeric cell values are modelled as exact integers (`ℤ`); the profit-margin
  division is carried out in `ℚ`.  Floating-point rounding is out of scope.
* Python strings are modelled as `String` where only equality matters and as
  `List Char` where ordering or character surgery matters.
* Each pipeline stage's `try/except` block is modelled as a total function
  returning its products together with the caught exception, if any.
-/

deriving instance DecidableEq for Except

namespace Superstore

/-! ### Loader (source lines 14-38)

`encodings = ['utf-8', 'latin1', 'ISO-8859-1', 'cp1252']`, tried in order for a
delimited-text file; `UnicodeDecodeError` continues the loop, success breaks,
and the `for`/`else` raises `ValueError` ("No se pudo determinar la
codificación del archivo") when all candidates decode-fail.  Every other
exception escapes the loop. -/

inductive Enc where
  | utf8
  | latin1
  | iso8859_1
  | cp1252
deriving DecidableEq

/-- The candidate-encoding list of source line 24, in source order. -/
def encodings : List Enc := [.utf8, .latin1, .iso8859_1, .cp1252]

/-- Outcome of a single `pd.read_csv(data_path, encoding=e)` call:
a parsed dataset, a `UnicodeDecodeError`, or any other exception. -/
inductive ReadOutcome (α : Type) where
  | ok : α → ReadOutcome α
  | decodeError : ReadOutcome α
  | otherError : ReadOutcome α
deriving DecidableEq

/-- Result of the whole delimited-text loading block. -/
inductive LoadResult (α : Type) where
  | ok : α → LoadResult α
  | encodingUndetermined : LoadResult α
  | propagated : LoadResult α
deriving DecidableEq

/-- The `for encoding in encodings: try ... except UnicodeDecodeError: continue`
loop with its `else: raise ValueError(...)` clause (source lines 25-32).
A non-decoding exception propagates out of the loop. -/
def tryEncodings {α : Type} (attempt : Enc → ReadOutcome α) : List Enc → LoadResult α
  | [] => .encodingUndetermined
  | e :: rest =>
    match attempt e with
    | .ok d => .ok d
    | .decodeError => tryEncodings attempt rest
    | .otherError => .propagated

/-- Loading a delimited-text file: run the loop over the fixed candidate list. -/
def loadDelimited {α : Type} (attempt : Enc → ReadOutcome α) : LoadResult α :=
  tryEncodings attempt encodings

/-- The encoding at which the loop breaks (the first candidate whose attempt
returns a dataset), if the loop accepts one. -/
def acceptedEncoding {α : Type} (attempt : Enc → ReadOutcome α) : List Enc → Option Enc
  | [] => none
  | e :: rest =>
    match attempt e with
    | .ok _ => some e
    | .decodeError => acceptedEncoding attempt rest
    | .otherError => none

def LoadResult.isOk {α : Type} : LoadResult α → Bool
  | .ok _ => true
  | _ => false

/-- The latin-1 (ISO-8859-1) decoder maps every byte `b` to the code point
`U+0000 + b`; it is total on byte sequences, which is why it can never raise a
`UnicodeDecodeError`. -/
def latin1Decode (bytes : List (Fin 256)) : List Char :=
  bytes.map (fun b => Char.ofNat b.val)

/-- The pieces of `pd.read_csv` that the loader composes for one file: one
decoder per remaining candidate encoding (`none` = `UnicodeDecodeError`) and a
text-level CSV parse (`none` = a non-decoding parser exception). -/
structure CsvReader (α : Type) where
  decodeUtf8 : List (Fin 256) → Option (List Char)
  decodeIso8859 : List (Fin 256) → Option (List Char)
  decodeCp1252 : List (Fin 256) → Option (List Char)
  parse : List Char → Option α

/-- Decoder dispatch; the latin1 decoder is the total byte-to-char map. -/
def decodeWith {α : Type} (rd : CsvReader α) : Enc → List (Fin 256) → Option (List Char)
  | .utf8 => rd.decodeUtf8
  | .latin1 => fun bs => some (latin1Decode bs)
  | .iso8859_1 => rd.decodeIso8859
  | .cp1252 => rd.decodeCp1252

/-- One `pd.read_csv(data_path, encoding=e)` attempt: decode the raw bytes,
then parse the decoded text. -/
def read_csv {α : Type} (rd : CsvReader α) (bytes : List (Fin 256)) (e : Enc) : ReadOutcome α :=
  match decodeWith rd e bytes with
  | none => .decodeError
  | some cs =>
    match rd.parse cs with
    | some d => .ok d
    | none => .otherError

/-! ### Normalizer: column-name canonicalization (source line 43)

`df.columns = [c.strip().lower().replace(' ', '_').replace('-', '_') for c in df.columns]`
modelled character-wise on `List Char`. -/

/-- Python `str.strip()` whitespace test, ASCII range. -/
def pyIsSpace (c : Char) : Bool :=
  (c == ' ') || (c == '\t') || (c == '\n') || (c == '\x0b') || (c == '\x0c') || (c == '\r')

/-- Python `str.strip()`: drop whitespace from both ends. -/
def pyStrip (l : List Char) : List Char :=
  ((l.dropWhile pyIsSpace).reverse.dropWhile pyIsSpace).reverse

/-- Python `str.lower()` on one character (ASCII case mapping). -/
def pyLower (c : Char) : Char :=
  if 'A' ≤ c ∧ c ≤ 'Z' then Char.ofNat (c.toNat + 32) else c

/-- Python `str.upper()` on one character (ASCII case mapping). -/
def pyUpper (c : Char) : Char :=
  if 'a' ≤ c ∧ c ≤ 'z' then Char.ofNat (c.toNat - 32) else c

/-- One character of `.lower().replace(' ', '_').replace('-', '_')`. -/
def canonChar (c : Char) : Char :=
  if pyLower c = ' ' ∨ pyLower c = '-' then '_' else pyLower c

/-- The whole column-name rewrite `c.strip().lower().replace(' ', '_').replace('-', '_')`. -/
def canonName (l : List Char) : List Char := (pyStrip l).map canonChar

/-! ### Dataset model

A normalized dataset: a set of column names plus rows mapping column names to
values.  A cell that is absent or non-numeric contributes `0` to a pandas
`sum` (pandas skips NaN), which `numOr0` mirrors. -/

inductive Value where
  | str : String → Value
  | num : ℤ → Value
  | null : Value
deriving DecidableEq

abbrev Row := List (String × Value)

structure Dataset where
  cols : List String
  rows : List Row
deriving DecidableEq

def getVal (r : Row) (c : String) : Value := (List.lookup c r).getD .null

def numOr0 : Value → ℤ
  | .num q => q
  | _ => 0

def getNum (r : Row) (c : String) : ℤ := numOr0 (getVal r c)

def strOf : Value → String
  | .str s => s
  | _ => ""

/-- `df[c].sum()` over the whole dataset. -/
def sumCol (df : Dataset) (c : String) : ℤ := (df.rows.map (fun r => getNum r c)).sum

/-! ### MetricEngine (source lines 66-79) -/

inductive KpiValue where
  | num : ℤ → KpiValue
  | str : String → KpiValue
deriving DecidableEq

/-- Round to the nearest integer, ties to even (the rounding used when Python
formats a ratio with a fixed number of decimals). -/
def roundHalfEven (q : ℚ) : ℤ :=
  let f : ℤ := ⌊q⌋
  if q - f < 1/2 then f
  else if 1/2 < q - f then f + 1
  else if f % 2 = 0 then f else f + 1

def pad2 (n : ℕ) : String := if n < 10 then "0" ++ toString n else toString n

/-- Python `f"{m:.2%}"`: the ratio as a percentage with two decimal places. -/
def formatPct (m : ℚ) : String :=
  let n := roundHalfEven (m * 10000)
  let a := n.natAbs
  (if n < 0 then "-" else "") ++ toString (a / 100) ++ "." ++ pad2 (a % 100) ++ "%"

/-- The KPI block (source lines 67-79): `Total Sales` if the sales column is
present; `Total Profit` and `Profit Margin` additionally if profit is present;
`total_profit / total_sales` is formed only when `total_sales != 0`, otherwise
the margin is the literal `"N/A"`. -/
def kpis (df : Dataset) : List (String × KpiValue) :=
  if "sales" ∈ df.cols then
    ("Total Sales", .num (sumCol df "sales")) ::
      (if "profit" ∈ df.cols then
        [("Total Profit", .num (sumCol df "profit")),
         ("Profit Margin",
            if sumCol df "sales" ≠ 0 then
              .str (formatPct ((sumCol df "profit" : ℚ) / (sumCol df "sales" : ℚ)))
            else .str "N/A")]
      else [])
  else []

/-! ### AggregationBuilder: monthly trend (source lines 91-95) -/

/-- The distinct `year_month` keys, in ascending order (`groupby` sorts its
keys by default). -/
def monthKeys (df : Dataset) : List ℤ :=
  List.insertionSort (α := ℤ) (· ≤ ·) (df.rows.map (fun r => getNum r "year_month")).dedup

/-- Sum of column `c` over the rows of one `year_month` group. -/
def sumMonth (df : Dataset) (k : ℤ) (c : String) : ℤ :=
  ((df.rows.filter (fun r => decide (getNum r "year_month" = k))).map (fun r => getNum r c)).sum

inductive AggError where
  | namedAggNone
deriving DecidableEq

/-- `by_month = df.groupby('year_month', as_index=False).agg(sales=('sales', 'sum'),
profit=('profit', 'sum') if 'profit' in df.columns else None)` (source lines 92-95).
When the profit column is absent the keyword argument is literally `profit=None`;
pandas' named-aggregation validation (`pandas.core.apply.reconstruct_func`)
rejects a non-tuple keyword value and raises
`TypeError("Must provide 'func' or tuples of '(column, aggfunc).")`. -/
def by_month (df : Dataset) : Except AggError (List (ℤ × ℤ × ℤ)) :=
  if "profit" ∈ df.cols then
    .ok ((monthKeys df).map (fun k => (k, sumMonth df k "sales", sumMonth df k "profit")))
  else
    .error .namedAggNone

/-! ### AggregationBuilder: top subcategories (source lines 106-108) -/

/-- The `(category, sub_category)` grouping key of one row. -/
def catKey (r : Row) : String × String :=
  (strOf (getVal r "category"), strOf (getVal r "sub_category"))

/-- Strict lexicographic order on `(category, sub_category)` keys. -/
def keyLT (a b : String × String) : Prop :=
  a.1.data < b.1.data ∨ (a.1.data = b.1.data ∧ a.2.data < b.2.data)

/-- Reflexive closure of `keyLT`. -/
def keyLE (a b : String × String) : Prop := keyLT a b ∨ a = b

instance : DecidableRel keyLT := fun a b => by unfold keyLT; infer_instance

instance : DecidableRel keyLE := fun a b => by unfold keyLE; infer_instance

/-- The grouped keys in the order `groupby(['category', 'sub_category'])`
emits them: sorted ascending by key (`sort=True` is the pandas default). -/
def catKeys (df : Dataset) : List (String × String) :=
  List.insertionSort keyLE (df.rows.map catKey).dedup

/-- Summed sales of one `(category, sub_category)` group. -/
def catSum (df : Dataset) (k : String × String) : ℤ :=
  ((df.rows.filter (fun r => decide (catKey r = k))).map (fun r => getNum r "sales")).sum

/-- `cat = df.groupby(['category', 'sub_category'], as_index=False)['sales'].sum()`
(source line 107): one row per group, keys ascending. -/
def cat_grouped (df : Dataset) : List ((String × String) × ℤ) :=
  (catKeys df).map (fun k => (k, catSum df k))

/-- Comparison used by `sort_values('sales')`: by the sales measure only. -/
def salesLE (a b : (String × String) × ℤ) : Prop := a.2 ≤ b.2

instance : DecidableRel salesLE := fun a b => by unfold salesLE; infer_instance

/-- `cat.sort_values('sales', ascending=False).head(20)` (source line 108).
pandas implements a descending sort as the REVERSE of the ascending argsort
(`pandas.core.sorting.nargsort`: `if not ascending: indexer = indexer[::-1]`),
so rows whose sales are equal come out in reverse grouped-table order; the sort
is not a stable descending sort. -/
def cat (df : Dataset) : List ((String × String) × ℤ) :=
  ((List.insertionSort salesLE (cat_grouped df)).reverse).take 20

/-- The refined descending relation the code's sort actually establishes:
strictly smaller sales later, and equal-sales rows in reverse key order. -/
def salesThenKey (a b : (String × String) × ℤ) : Prop :=
  a.2 < b.2 ∨ (a.2 = b.2 ∧ keyLT a.1 b.1)

/-- Spec-side definition (for comparison with `cat`): the grouped table in
first-encounter order, followed by a STABLE descending sort by summed sales
and `head(20)` — the ordering policy the claim describes. -/
def catEncounterTable (df : Dataset) : List ((String × String) × ℤ) :=
  (df.rows.map catKey).dedup.map (fun k => (k, catSum df k))

/-- Stable-descending comparison: earlier row kept earlier on ties. -/
def salesGE (a b : (String × String) × ℤ) : Prop := b.2 ≤ a.2

instance : DecidableRel salesGE := fun a b => by unfold salesGE; infer_instance

/-- The claim's "sort descending by summed sales, stable, top 20". -/
def topSubcatsSpec (df : Dataset) : List ((String × String) × ℤ) :=
  (List.insertionSort salesGE (catEncounterTable df)).take 20

instance : IsTrans (String × String) keyLE :=
  ⟨by
    intro a b c hab hbc
    unfold keyLE keyLT at *
    rcases hab with hab | rfl
    · rcases hbc with hbc | rfl
      · left
        rcases hab with h1 | ⟨e1, h1⟩ <;> rcases hbc with h2 | ⟨e2, h2⟩
        · exact Or.inl (lt_trans h1 h2)
        · exact Or.inl (by rw [← e2]; exact h1)
        · exact Or.inl (by rw [e1]; exact h2)
        · exact Or.inr ⟨e1.trans e2, lt_trans h1 h2⟩
      · exact Or.inl hab
    · exact hbc⟩

instance : IsTotal (String × String) keyLE :=
  ⟨by
    intro a b
    unfold keyLE keyLT
    rcases lt_trichotomy a.1.data b.1.data with h | h | h
    · exact Or.inl (Or.inl (Or.inl h))
    · rcases lt_trichotomy a.2.data b.2.data with h2 | h2 | h2
      · exact Or.inl (Or.inl (Or.inr ⟨h, h2⟩))
      · exact Or.inl (Or.inr (Prod.ext (String.ext h) (String.ext h2)))
      · exact Or.inr (Or.inl (Or.inr ⟨h.symm, h2⟩))
    · exact Or.inr (Or.inl (Or.inl h))⟩

instance : IsAntisymm (String × String) keyLE :=
  ⟨by
    intro a b hab hba
    unfold keyLE keyLT at *
    rcases hab with hab | rfl
    · rcases hba with hba | hba
      · exfalso
        rcases hab with h1 | ⟨e1, h1⟩ <;> rcases hba with h2 | ⟨e2, h2⟩
        · exact lt_irrefl _ (lt_trans h1 h2)
        · rw [e2] at h1
          exact lt_irrefl _ h1
        · rw [e1] at h2
          exact lt_irrefl _ h2
        · exact lt_irrefl _ (lt_trans h1 h2)
      · exact hba.symm
    · rfl⟩

instance : IsTotal ((String × String) × ℤ) salesLE :=
  ⟨fun a b => Int.le_total a.2 b.2⟩

instance : IsTrans ((String × String) × ℤ) salesLE :=
  ⟨fun _ _ _ h1 h2 => le_trans h1 h2⟩

/-! ### Visualization stage (source lines 89-133)

All three charts live in ONE `try` block; the first uncaught exception aborts
the remainder of the stage.  The stage yields the chart files written before
the exception, plus the exception itself, if any. -/

inductive VizError where
  | aggFailed : AggError → VizError
deriving DecidableEq

/-- `group_cols = [c for c in ['region', 'segment'] if c in df.columns]`
(source line 121). -/
def group_cols (df : Dataset) : List String :=
  ["region", "segment"].filter (fun c => decide (c ∈ df.cols))

/-- Charts 2 and 3 (they raise nothing in the model): append their output
files when their required columns are present. -/
def chart23 (df : Dataset) (acc : List String) : List String :=
  let acc2 :=
    if "category" ∈ df.cols ∧ "sub_category" ∈ df.cols ∧ "sales" ∈ df.cols then
      acc ++ ["top_subcategorias.html"]
    else acc
  if group_cols df ≠ [] ∧ "sales" ∈ df.cols then
    acc2 ++ ["ventas_por_region.html"]
  else acc2

/-- The whole visualization `try` block: chart 1 (monthly trend) runs first and
is the only chart that can raise (via `by_month`); its exception is caught at
the stage boundary, skipping charts 2 and 3. -/
def vizStage (df : Dataset) : List String × Option VizError :=
  if "year_month" ∈ df.cols ∧ "sales" ∈ df.cols then
    match by_month df with
    | .error e => ([], some (.aggFailed e))
    | .ok _ => (chart23 df ["ventas_por_mes.html"], none)
  else
    (chart23 df [], none)

/-! ### ReportAssembler (source lines 137-179) -/

inductive ReportSection where
  | kpiBlock : List (String × KpiValue) → ReportSection
  | chart : String → String → ReportSection
deriving DecidableEq

def isAsciiLetter (c : Char) : Bool :=
  ('a' ≤ c && c ≤ 'z') || ('A' ≤ c && c ≤ 'Z')

/-- Python `str.title()` (ASCII): uppercase a letter that follows a non-letter,
lowercase a letter that follows a letter. -/
def titleChars : Bool → List Char → List Char
  | _, [] => []
  | prevAlpha, c :: cs =>
    (if isAsciiLetter c then (if prevAlpha then pyLower c else pyUpper c) else c)
      :: titleChars (isAsciiLetter c) cs

/-- `Path(f).stem`: drop a trailing `.html` extension. -/
def stemChars (l : List Char) : List Char :=
  if l.reverse.take 5 = ['l', 'm', 't', 'h', '.'] then (l.reverse.drop 5).reverse else l

/-- `p.stem.replace('_', ' ').title()` (source line 166). -/
def chartTitle (f : String) : String :=
  String.mk (titleChars false ((stemChars f.data).map (fun c => if c = '_' then ' ' else c)))

/-- The dashboard `try` block: `html_files` is the list the working-directory
glob returned (excluding the dashboard file itself).  With an empty list no
document is written and a diagnostic goes to stderr (source lines 177-178);
otherwise the document is one KPI section followed by one chart section per
scanned file, in scan order. -/
def dashboardStage (kpiSet : List (String × KpiValue)) (html_files : List String) :
    Option (List ReportSection) × List String :=
  if html_files = [] then
    (none, ["No se encontraron gráficos para incluir en el dashboard"])
  else
    (some (.kpiBlock kpiSet :: html_files.map (fun f => .chart (chartTitle f) f)), [])

structure RunResult where
  kpiSet : List (String × KpiValue)
  chartFiles : List String
  vizError : Option VizError
  dashboard : Option (List ReportSection)
  diagnostics : List String
deriving DecidableEq

/-- The stderr line of the visualization stage's `except` clause. -/
def vizDiag : VizError → String
  | .aggFailed _ => "Error al generar visualizaciones: TypeError"

/-- One pipeline run over an already-normalized dataset.  `scan` models the
order in which `Path('.').glob('*.html')` returns the produced chart files;
the directory is assumed to contain exactly the files this run wrote. -/
def run (df : Dataset) (scan : List String → List String) : RunResult :=
  let k := kpis df
  let v := vizStage df
  let d := dashboardStage k (scan v.1)
  { kpiSet := k
    chartFiles := v.1
    vizError := v.2
    dashboard := d.1
    diagnostics := (match v.2 with | some e => [vizDiag e] | none => []) ++ d.2 }

/-! ### Concrete inputs used by witnesses and counterexamples -/

/-- A normalized dataset with `year_month` and `sales` but no `profit`. -/
def df1 : Dataset :=
  { cols := ["year_month", "sales"]
    rows := [[("year_month", .num 601), ("sales", .num 100)],
             [("year_month", .num 601), ("sales", .num 150)],
             [("year_month", .num 602), ("sales", .num 200)]] }

/-- All chart recipes applicable except that `profit` is missing, so chart 1
raises and aborts the stage. -/
def df2 : Dataset :=
  { cols := ["year_month", "sales", "category", "sub_category", "region", "segment"]
    rows := [[("year_month", .num 601), ("sales", .num 100), ("category", .str "Furniture"),
              ("sub_category", .str "Chairs"), ("region", .str "West"), ("segment", .str "Consumer")]] }

/-- Two groups with equal summed sales, encountered A-x before B-y. -/
def df3 : Dataset :=
  { cols := ["category", "sub_category", "sales"]
    rows := [[("category", .str "A"), ("sub_category", .str "x"), ("sales", .num 5)],
             [("category", .str "B"), ("sub_category", .str "y"), ("sales", .num 5)]] }

/-- A dataset on which all three chart recipes succeed. -/
def df4 : Dataset :=
  { cols := ["order_date", "year_month", "sales", "profit", "category", "sub_category",
             "region", "segment"]
    rows := [[("year_month", .num 601), ("sales", .num 100), ("profit", .num 20),
              ("category", .str "Furniture"), ("sub_category", .str "Chairs"),
              ("region", .str "West"), ("segment", .str "Consumer")],
             [("year_month", .num 602), ("sales", .num 50), ("profit", .num 5),
              ("category", .str "Technology"), ("sub_category", .str "Phones"),
              ("region", .str "East"), ("segment", .str "Corporate")]] }

/-- Sales sums to zero while profit is present. -/
def dfZ : Dataset :=
  { cols := ["sales", "profit"]
    rows := [[("sales", .num 7), ("profit", .num 1)],
             [("sales", .num (-7)), ("profit", .num 2)]] }

/-- Sales sums to 10, profit to 3: margin 30.00%. -/
def dfNZ : Dataset :=
  { cols := ["sales", "profit"]
    rows := [[("sales", .num 4), ("profit", .num 1)],
             [("sales", .num 6), ("profit", .num 2)]] }

/-- Sales present, profit absent. -/
def df8 : Dataset :=
  { cols := ["sales", "quantity"]
    rows := [[("sales", .num 12), ("quantity", .num 2)],
             [("sales", .num 18), ("quantity", .num 1)]] }

/-- A richer top-subcategories input for the amended-claim witness. -/
def dfW : Dataset :=
  { cols := ["category", "sub_category", "sales"]
    rows := [[("category", .str "A"), ("sub_category", .str "x"), ("sales", .num 3)],
             [("category", .str "B"), ("sub_category", .str "y"), ("sales", .num 9)],
             [("category", .str "A"), ("sub_category", .str "x"), ("sales", .num 2)]] }

/-- `dfW` with its rows reordered (a permutation of `dfW.rows`). -/
def dfW2 : Dataset :=
  { cols := ["category", "sub_category", "sales"]
    rows := [[("category", .str "A"), ("sub_category", .str "x"), ("sales", .num 2)],
             [("category", .str "B"), ("sub_category", .str "y"), ("sales", .num 9)],
             [("category", .str "A"), ("sub_category", .str "x"), ("sales", .num 3)]] }

/-- A glob order that returns the produced chart files out of production order. -/
def scan0 : List String → List String :=
  fun _ => ["top_subcategorias.html", "ventas_por_mes.html", "ventas_por_region.html"]

/-- A glob order that happens to coincide with production order. -/
def scanId : List String → List String := fun l => l

/-- Every candidate encoding decode-fails. -/
def attemptA : Enc → ReadOutcome Unit := fun _ => .decodeError

/-- utf-8 decode-fails, latin1 parses. -/
def attemptB : Enc → ReadOutcome ℕ := fun e =>
  match e with
  | .latin1 => .ok 7
  | _ => .decodeError

/-- A reader whose utf-8 decoder rejects the input and whose parser accepts
any decoded text. -/
def rdW : CsvReader (List Char) :=
  { decodeUtf8 := fun _ => none
    decodeIso8859 := fun _ => none
    decodeCp1252 := fun _ => none
    parse := fun cs => some cs }

/-- A byte sequence that is not valid UTF-8. -/
def bytesW : List (Fin 256) := [⟨0xFF, by decide⟩, ⟨0x41, by decide⟩]

/-! ## Loader theorems -/

theorem tryEncodings_all_fail {α : Type} (attempt : Enc → ReadOutcome α) :
    ∀ l : List Enc, (∀ e ∈ l, attempt e = .decodeError) →
      tryEncodings attempt l = .encodingUndetermined := by
  intro l
  induction l with
  | nil => intro _; rfl
  | cons e rest ih =>
    intro h
    have he : attempt e = .decodeError := h e (List.mem_cons_self e rest)
    simp only [tryEncodings, he]
    exact ih (fun x hx => h x (List.mem_cons_of_mem e hx))

theorem tryEncodings_first_ok {α : Type} (attempt : Enc → ReadOutcome α) :
    ∀ (l : List Enc) (i : ℕ) (hi : i < l.length) (d : α),
      attempt (l.get ⟨i, hi⟩) = .ok d →
      (∀ j (hj : j < i), attempt (l.get ⟨j, Nat.lt_trans hj hi⟩) = .decodeError) →
      tryEncodings attempt l = .ok d := by
  intro l
  induction l with
  | nil => intro i hi; simp at hi
  | cons e rest ih =>
    intro i hi d hok hprev
    cases i with
    | zero =>
      simp only [List.get] at hok
      simp only [tryEncodings, hok]
    | succ n =>
      have he : attempt e = .decodeError := by simpa using hprev 0 (Nat.succ_pos n)
      simp only [tryEncodings, he]
      exact ih n (by simpa using hi) d (by simpa using hok)
        (fun j hj => by simpa using hprev (j + 1) (Nat.succ_lt_succ hj))

/-- C6: loading delimited text tries the fixed ordered candidates utf-8,
latin1, ISO-8859-1, cp1252; if every candidate fails with a decoding error the
loop raises the encoding-undetermined failure instead of returning a dataset,
and otherwise the first candidate that parses without a decoding error is
accepted and its parse is returned as the dataset. -/
theorem c6_encoding_fallback {α : Type} (attempt : Enc → ReadOutcome α) :
    ((∀ e ∈ encodings, attempt e = .decodeError) →
        loadDelimited attempt = .encodingUndetermined)
    ∧ (∀ (i : ℕ) (hi : i < encodings.length) (d : α),
        attempt (encodings.get ⟨i, hi⟩) = .ok d →
        (∀ j (hj : j < i), attempt (encodings.get ⟨j, Nat.lt_trans hj hi⟩) = .decodeError) →
        loadDelimited attempt = .ok d) :=
  ⟨fun h => tryEncodings_all_fail attempt encodings h,
   fun i hi d hok hprev => tryEncodings_first_ok attempt encodings i hi d hok hprev⟩

/-- Witness for C6: all four candidates decode-failing yields the
encoding-undetermined failure; utf-8 decode-failing with latin1 succeeding
yields latin1's parse. -/
theorem c6_encoding_fallback_witness :
    loadDelimited attemptA = .encodingUndetermined ∧ loadDelimited attemptB = .ok 7 :=
  ⟨(c6_encoding_fallback attemptA).1 (by decide),
   (c6_encoding_fallback attemptB).2 1 (by decide) 7 (by decide) (by decide)⟩

/-- C10: because the latin1 decoder is total on byte sequences, the loop's
all-candidates-exhausted branch is unreachable — the load never yields the
encoding-undetermined failure — and whenever decoding errors are the only
failures raised, the loop accepts utf-8 or latin1. -/
theorem c10_latin1_unreachable_exhaustion {α : Type} (rd : CsvReader α)
    (bytes : List (Fin 256)) :
    loadDelimited (read_csv rd bytes) ≠ .encodingUndetermined
    ∧ ((∀ e ∈ encodings, read_csv rd bytes e ≠ .otherError) →
        LoadResult.isOk (loadDelimited (read_csv rd bytes)) = true
        ∧ (acceptedEncoding (read_csv rd bytes) encodings = some .utf8
            ∨ acceptedEncoding (read_csv rd bytes) encodings = some .latin1)) := by
  have hl : read_csv rd bytes .latin1 ≠ .decodeError := by
    simp only [read_csv, decodeWith]
    cases rd.parse (latin1Decode bytes) <;> simp
  cases hu : read_csv rd bytes .utf8 with
  | ok d =>
    constructor
    · simp only [loadDelimited, encodings, tryEncodings, hu]
      intro h
      cases h
    · intro _
      constructor
      · simp only [loadDelimited, encodings, tryEncodings, hu, LoadResult.isOk]
      · left
        simp only [encodings, acceptedEncoding, hu]
  | otherError =>
    constructor
    · simp only [loadDelimited, encodings, tryEncodings, hu]
      intro h
      cases h
    · intro hno
      exact absurd hu (hno .utf8 (by decide))
  | decodeError =>
    cases hlat : read_csv rd bytes .latin1 with
    | decodeError => exact absurd hlat hl
    | ok d =>
      constructor
      · simp only [loadDelimited, encodings, tryEncodings, hu, hlat]
        intro h
        cases h
      · intro _
        constructor
        · simp only [loadDelimited, encodings, tryEncodings, hu, hlat, LoadResult.isOk]
        · right
          simp only [encodings, acceptedEncoding, hu, hlat]
    | otherError =>
      constructor
      · simp only [loadDelimited, encodings, tryEncodings, hu, hlat]
        intro h
        cases h
      · intro hno
        exact absurd hlat (hno .latin1 (by decide))

/-- Witness for C10 at a concrete reader whose utf-8 decoder rejects the
input: the load succeeds via latin1. -/
theorem c10_latin1_unreachable_exhaustion_witness :
    loadDelimited (read_csv rdW bytesW) ≠ .encodingUndetermined
    ∧ (LoadResult.isOk (loadDelimited (read_csv rdW bytesW)) = true
        ∧ (acceptedEncoding (read_csv rdW bytesW) encodings = some .utf8
            ∨ acceptedEncoding (read_csv rdW bytesW) encodings = some .latin1)) :=
  ⟨(c10_latin1_unreachable_exhaustion rdW bytesW).1,
   (c10_latin1_unreachable_exhaustion rdW bytesW).2 (by decide)⟩

/-! ## Normalizer theorems -/

theorem toNat_ofNat_small (n : ℕ) (h : n < 0xd800) : (Char.ofNat n).toNat = n := by
  rw [Char.ofNat, dif_pos (Or.inl h)]
  rfl

theorem pyLower_idem (c : Char) : pyLower (pyLower c) = pyLower c := by
  unfold pyLower
  by_cases h : 'A' ≤ c ∧ c ≤ 'Z'
  · rw [if_pos h]
    have hc : c.toNat ≤ 90 := h.2
    have ha : 65 ≤ c.toNat := h.1
    have hn : (Char.ofNat (c.toNat + 32)).toNat = c.toNat + 32 :=
      toNat_ofNat_small _ (by omega)
    rw [if_neg]
    intro hcon
    have h2 : (Char.ofNat (c.toNat + 32)).toNat ≤ (90 : ℕ) := hcon.2
    omega
  · rw [if_neg h, if_neg h]

theorem pyIsSpace_pyLower (c : Char) (h : pyIsSpace (pyLower c) = true) :
    pyIsSpace c = true := by
  by_cases hc : 'A' ≤ c ∧ c ≤ 'Z'
  · exfalso
    rw [pyLower, if_pos hc] at h
    have ha : 65 ≤ c.toNat := hc.1
    have hb : c.toNat ≤ 90 := hc.2
    have hn : (Char.ofNat (c.toNat + 32)).toNat = c.toNat + 32 :=
      toNat_ofNat_small _ (by omega)
    have t1 : (' ' : Char).toNat = 32 := rfl
    have t2 : ('\t' : Char).toNat = 9 := rfl
    have t3 : ('\n' : Char).toNat = 10 := rfl
    have t4 : ('\x0b' : Char).toNat = 11 := rfl
    have t5 : ('\x0c' : Char).toNat = 12 := rfl
    have t6 : ('\r' : Char).toNat = 13 := rfl
    simp only [pyIsSpace, Bool.or_eq_true, beq_iff_eq] at h
    rcases h with ((((h | h) | h) | h) | h) | h <;>
      · have ht := congrArg Char.toNat h
        rw [hn] at ht
        omega
  · rwa [pyLower, if_neg hc] at h

theorem canonChar_eq_ite (c : Char) :
    canonChar c = if pyLower c = ' ' ∨ pyLower c = '-' then '_' else pyLower c := rfl

theorem canonChar_idem (c : Char) : canonChar (canonChar c) = canonChar c := by
  by_cases h : pyLower c = ' ' ∨ pyLower c = '-'
  · have h1 : canonChar c = '_' := by rw [canonChar_eq_ite, if_pos h]
    rw [h1]
    decide
  · have h1 : canonChar c = pyLower c := by rw [canonChar_eq_ite, if_neg h]
    rw [h1, canonChar_eq_ite, pyLower_idem, if_neg h]

theorem pyIsSpace_canonChar {c : Char} (h : pyIsSpace (canonChar c) = true) :
    pyIsSpace c = true := by
  rw [canonChar_eq_ite] at h
  by_cases hc : pyLower c = ' ' ∨ pyLower c = '-'
  · rw [if_pos hc] at h
    exact absurd h (by decide)
  · rw [if_neg hc] at h
    exact pyIsSpace_pyLower c h

theorem head_dropWhile_false (p : Char → Bool) (l : List Char) (a : Char)
    (h : (l.dropWhile p).head? = some a) : p a = false := by
  induction l with
  | nil => simp at h
  | cons b t ih =>
    rw [List.dropWhile_cons] at h
    by_cases hb : p b = true
    · rw [if_pos hb] at h
      exact ih h
    · rw [if_neg hb] at h
      simp only [List.head?_cons, Option.some.injEq] at h
      rw [← h]
      simpa using hb

theorem dropWhile_eq_self_of_head (p : Char → Bool) (m : List Char)
    (h : ∀ a, m.head? = some a → p a = false) : m.dropWhile p = m := by
  cases m with
  | nil => rfl
  | cons b t =>
    have hb := h b rfl
    rw [List.dropWhile_cons, if_neg]
    simp [hb]

theorem pyStrip_head (l : List Char) (a : Char) (h : (pyStrip l).head? = some a) :
    pyIsSpace a = false := by
  unfold pyStrip at h
  have hsuf : (l.dropWhile pyIsSpace).reverse.dropWhile pyIsSpace
      <:+ (l.dropWhile pyIsSpace).reverse := List.dropWhile_suffix pyIsSpace
  have hpre := (List.reverse_prefix).mpr hsuf
  rw [List.reverse_reverse] at hpre
  obtain ⟨t, ht⟩ := hpre
  have hA : (l.dropWhile pyIsSpace).head? = some a := by
    rw [← ht, List.head?_append, h]
    rfl
  exact head_dropWhile_false pyIsSpace l a hA

theorem pyStrip_getLast (l : List Char) (a : Char) (h : (pyStrip l).getLast? = some a) :
    pyIsSpace a = false := by
  unfold pyStrip at h
  rw [List.getLast?_eq_head?_reverse, List.reverse_reverse] at h
  exact head_dropWhile_false pyIsSpace _ a h

theorem pyStrip_eq_self (m : List Char)
    (hh : ∀ a, m.head? = some a → pyIsSpace a = false)
    (hl : ∀ a, m.getLast? = some a → pyIsSpace a = false) : pyStrip m = m := by
  unfold pyStrip
  rw [dropWhile_eq_self_of_head pyIsSpace m hh,
    dropWhile_eq_self_of_head pyIsSpace m.reverse
      (fun a ha => hl a (by rwa [List.head?_reverse] at ha)),
    List.reverse_reverse]

theorem pyStrip_map_canonChar (l : List Char) :
    pyStrip ((pyStrip l).map canonChar) = (pyStrip l).map canonChar := by
  apply pyStrip_eq_self
  · intro a ha
    rw [List.head?_map] at ha
    cases hh : (pyStrip l).head? with
    | none => rw [hh] at ha; simp at ha
    | some b =>
      rw [hh, Option.map_some'] at ha
      have hb := pyStrip_head l b hh
      cases ha
      cases hps : pyIsSpace (canonChar b) with
      | false => rfl
      | true => exact absurd (pyIsSpace_canonChar hps) (by simp [hb])
  · intro a ha
    rw [List.getLast?_map] at ha
    cases hh : (pyStrip l).getLast? with
    | none => rw [hh] at ha; simp at ha
    | some b =>
      rw [hh, Option.map_some'] at ha
      have hb := pyStrip_getLast l b hh
      cases ha
      cases hps : pyIsSpace (canonChar b) with
      | false => rfl
      | true => exact absurd (pyIsSpace_canonChar hps) (by simp [hb])

/-- C7: column-name canonicalization (strip, lowercase, spaces and hyphens to
underscores) is idempotent: applying it twice yields the same name as once. -/
theorem c7_canonicalization_idempotent (l : List Char) :
    canonName (canonName l) = canonName l := by
  unfold canonName
  rw [pyStrip_map_canonChar, List.map_map]
  exact List.map_congr_left (fun a _ => canonChar_idem a)

/-! ## MetricEngine theorems -/

/-- C5: with sales and profit columns present, the Profit Margin KPI is the
literal "N/A" exactly when total sales is zero (no division is performed), and
is total profit over total sales formatted as a two-decimal percentage
otherwise. -/
theorem c5_profit_margin_guard (df : Dataset)
    (hs : "sales" ∈ df.cols) (hp : "profit" ∈ df.cols) (v : KpiValue) :
    (("Profit Margin", v) ∈ kpis df ↔
      v = if sumCol df "sales" = 0 then KpiValue.str "N/A"
          else KpiValue.str (formatPct ((sumCol df "profit" : ℚ) / (sumCol df "sales" : ℚ)))) := by
  by_cases hz : sumCol df "sales" = 0
  · simp [kpis, hs, hp, hz]
  · simp [kpis, hs, hp, hz]

/-- Witness for C5: a dataset whose sales sum to zero yields the "N/A" margin;
one whose sales sum to 10 with profit 3 yields "30.00%". -/
theorem c5_profit_margin_guard_witness :
    (("Profit Margin", KpiValue.str "N/A") ∈ kpis dfZ)
    ∧ (("Profit Margin", KpiValue.str "30.00%") ∈ kpis dfNZ) := by
  constructor
  · exact (c5_profit_margin_guard dfZ (by decide) (by decide) _).mpr (by decide)
  · apply (c5_profit_margin_guard dfNZ (by decide) (by decide) _).mpr
    have h1 : sumCol dfNZ "profit" = 3 := by decide
    have h2 : sumCol dfNZ "sales" = 10 := by decide
    rw [h1, h2, if_neg (by decide)]
    have h3 : ((3 : ℤ) : ℚ) / ((10 : ℤ) : ℚ) = 3 / 10 := by norm_num
    rw [h3]
    have h4 : (3 / 10 : ℚ) * 10000 = 3000 := by norm_num
    have h5 : roundHalfEven 3000 = 3000 := by
      have hf : ⌊(3000 : ℚ)⌋ = 3000 := by norm_num [Int.floor_eq_iff]
      simp only [roundHalfEven, hf]
      norm_num
    simp only [formatPct, h4, h5]
    decide

/-- C8: with sales present and profit absent, the KpiSet is exactly the
single Total Sales entry; Total Profit and Profit Margin keys are absent. -/
theorem c8_kpis_sales_only (df : Dataset)
    (hs : "sales" ∈ df.cols) (hp : "profit" ∉ df.cols) :
    kpis df = [("Total Sales", KpiValue.num (sumCol df "sales"))]
    ∧ ∀ v : KpiValue, ("Total Profit", v) ∉ kpis df ∧ ("Profit Margin", v) ∉ kpis df := by
  have h : kpis df = [("Total Sales", KpiValue.num (sumCol df "sales"))] := by
    simp [kpis, hs, hp]
  refine ⟨h, fun v => ⟨?_, ?_⟩⟩ <;> simp [h]

/-- Witness for C8 at a concrete dataset with sales but no profit. -/
theorem c8_kpis_sales_only_witness :
    kpis df8 = [("Total Sales", KpiValue.num (sumCol df8 "sales"))]
    ∧ ("Total Profit", KpiValue.num 0) ∉ kpis df8 :=
  ⟨(c8_kpis_sales_only df8 (by decide) (by decide)).1,
   ((c8_kpis_sales_only df8 (by decide) (by decide)).2 (KpiValue.num 0)).1⟩

/-! ## Chart-stage theorems -/

/-- C1: at a normalized dataset with the derived year-month column and sales
but no profit column, the monthly-trend recipe does not produce its chart:
the `profit=None` named aggregation raises a TypeError, the stage catches it,
and no chart file is written — a computation failure, not a skip. -/
theorem c1_missing_profit_breaks_monthly_trend :
    ("year_month" ∈ df1.cols ∧ "sales" ∈ df1.cols ∧ "profit" ∉ df1.cols)
    ∧ by_month df1 = .error .namedAggNone
    ∧ vizStage df1 = ([], some (.aggFailed .namedAggNone)) := by decide

/-- C2 (counterexample): a run in which chart 1's production raises: the
exception is caught and recorded, but charts 2 and 3 — whose required columns
are all present — are not produced either; the stage yields no chart files. -/
theorem c2_counterexample_one_failure_kills_all :
    vizStage df2 = ([], some (.aggFailed .namedAggNone))
    ∧ ("category" ∈ df2.cols ∧ "sub_category" ∈ df2.cols ∧ "sales" ∈ df2.cols
        ∧ "region" ∈ df2.cols) := by decide

/-- C2 (amended): an exception raised while producing a chart is caught at the
chart-generation stage boundary and reported as a diagnostic, and it does not
prevent the report-assembly stage, which runs on the chart files actually
written; it does, however, abort the remaining charts of the same stage. -/
theorem c2_stage_level_isolation (df : Dataset) (scan : List String → List String)
    (e : VizError) (h : (vizStage df).2 = some e) :
    vizDiag e ∈ (run df scan).diagnostics
    ∧ (run df scan).dashboard = (dashboardStage (kpis df) (scan (vizStage df).1)).1 := by
  constructor
  · simp [run, h]
  · rfl

/-- Witness for C2's amended statement at the concrete failing run. -/
theorem c2_stage_level_isolation_witness :
    vizDiag (.aggFailed .namedAggNone) ∈ (run df2 scanId).diagnostics
    ∧ (run df2 scanId).dashboard = (dashboardStage (kpis df2) (scanId (vizStage df2).1)).1 :=
  c2_stage_level_isolation df2 scanId (.aggFailed .namedAggNone) (by decide)

/-! ## ReportAssembler theorems -/

/-- C9: with no chart artifacts at assembly time the assembler writes no
report document and emits the empty-report diagnostic, even when the KpiSet
is non-empty (the statement covers every KpiSet). -/
theorem c9_empty_report (kpiSet : List (String × KpiValue)) :
    (dashboardStage kpiSet []).1 = none ∧ (dashboardStage kpiSet []).2 ≠ [] := by
  constructor
  · rfl
  · simp [dashboardStage]

/-- C4 (counterexample): a run in which all three chart recipes succeed, but
the working-directory scan returns the files out of production order: the
assembled document's chart sections follow the scan order, not the
production order claimed. -/
theorem c4_counterexample_scan_order :
    (vizStage df4).1 = ["ventas_por_mes.html", "top_subcategorias.html", "ventas_por_region.html"]
    ∧ (vizStage df4).2 = none
    ∧ List.Perm (scan0 (vizStage df4).1) (vizStage df4).1
    ∧ (run df4 scan0).dashboard =
        some [ReportSection.kpiBlock (kpis df4),
              ReportSection.chart (chartTitle "top_subcategorias.html") "top_subcategorias.html",
              ReportSection.chart (chartTitle "ventas_por_mes.html") "ventas_por_mes.html",
              ReportSection.chart (chartTitle "ventas_por_region.html") "ventas_por_region.html"]
    ∧ (run df4 scan0).dashboard ≠
        some [ReportSection.kpiBlock (kpis df4),
              ReportSection.chart (chartTitle "ventas_por_mes.html") "ventas_por_mes.html",
              ReportSection.chart (chartTitle "top_subcategorias.html") "top_subcategorias.html",
              ReportSection.chart (chartTitle "ventas_por_region.html") "ventas_por_region.html"] := by
  have hdash : (run df4 scan0).dashboard =
      some [ReportSection.kpiBlock (kpis df4),
            ReportSection.chart (chartTitle "top_subcategorias.html") "top_subcategorias.html",
            ReportSection.chart (chartTitle "ventas_por_mes.html") "ventas_por_mes.html",
            ReportSection.chart (chartTitle "ventas_por_region.html") "ventas_por_region.html"] := rfl
  refine ⟨by decide, by decide, by decide, hdash, ?_⟩
  rw [hdash]
  intro h
  simp only [Option.some.injEq, List.cons.injEq] at h
  exact absurd h.2 (by decide)

/-- C4 (amended): for a run in which all three chart recipes succeed, the
assembled document is exactly one KPI section followed by exactly three chart
sections, one per produced chart; the chart sections appear in the order of
the working-directory scan (a permutation of the produced files), which need
not be the production order. -/
theorem c4_sections_follow_scan_order (df : Dataset) (scan : List String → List String)
    (h1 : "year_month" ∈ df.cols) (h2 : "sales" ∈ df.cols) (h3 : "profit" ∈ df.cols)
    (h4 : "category" ∈ df.cols) (h5 : "sub_category" ∈ df.cols) (h6 : "region" ∈ df.cols)
    (hscan : List.Perm (scan (vizStage df).1) (vizStage df).1) :
    (vizStage df).1 = ["ventas_por_mes.html", "top_subcategorias.html", "ventas_por_region.html"]
    ∧ (run df scan).dashboard =
        some (ReportSection.kpiBlock (kpis df) ::
          (scan (vizStage df).1).map (fun f => ReportSection.chart (chartTitle f) f))
    ∧ (scan (vizStage df).1).length = 3 := by
  have hfiles : (vizStage df).1
      = ["ventas_por_mes.html", "top_subcategorias.html", "ventas_por_region.html"] := by
    have hreg : decide ("region" ∈ df.cols) = true := decide_eq_true h6
    have hgc : group_cols df ≠ [] := by
      simp [group_cols, List.filter_cons, hreg]
    simp [vizStage, by_month, chart23, h1, h2, h3, h4, h5, hgc]
  have hlen : (scan (vizStage df).1).length = 3 := by
    rw [hscan.length_eq, hfiles]
    rfl
  have hne : scan (vizStage df).1 ≠ [] := by
    intro hnil
    rw [hnil] at hlen
    simp at hlen
  refine ⟨hfiles, ?_, hlen⟩
  show (dashboardStage (kpis df) (scan (vizStage df).1)).1 = _
  rw [dashboardStage, if_neg hne]

/-! ## Top-subcategories theorems -/

theorem orderedInsert_salesLE_pairwise (a : (String × String) × ℤ)
    (M : List ((String × String) × ℤ))
    (hM : M.Pairwise salesThenKey) (ha : ∀ b ∈ M, keyLT a.1 b.1) :
    (M.orderedInsert salesLE a).Pairwise salesThenKey := by
  induction M with
  | nil => simp [List.orderedInsert]
  | cons b M' ih =>
    simp only [List.orderedInsert]
    by_cases hab : salesLE a b
    · rw [if_pos hab]
      have hple : ∀ x ∈ b :: M', salesThenKey a x := by
        intro x hx
        have hax : a.2 ≤ x.2 := by
          rcases List.mem_cons.mp hx with rfl | hxm
          · exact hab
          · have hbx := (List.pairwise_cons.mp hM).1 x hxm
            unfold salesThenKey at hbx
            rcases hbx with h | ⟨h, _⟩
            · exact le_trans hab (le_of_lt h)
            · exact le_trans hab (le_of_eq h)
        rcases lt_or_eq_of_le hax with h | h
        · exact Or.inl h
        · exact Or.inr ⟨h, ha x hx⟩
      exact List.pairwise_cons.mpr ⟨hple, hM⟩
    · rw [if_neg hab]
      have hba : b.2 < a.2 := by
        unfold salesLE at hab
        omega
      refine List.pairwise_cons.mpr ⟨?_, ih (List.pairwise_cons.mp hM).2
        (fun x hx => ha x (List.mem_cons_of_mem b hx))⟩
      intro x hx
      rcases (List.mem_orderedInsert salesLE).mp hx with rfl | hxm
      · exact Or.inl hba
      · exact (List.pairwise_cons.mp hM).1 x hxm

theorem insertionSort_salesLE_pairwise (l : List ((String × String) × ℤ))
    (h : l.Pairwise (fun a b => keyLT a.1 b.1)) :
    (List.insertionSort salesLE l).Pairwise salesThenKey := by
  induction l with
  | nil => simp [List.insertionSort]
  | cons a t ih =>
    simp only [List.insertionSort]
    apply orderedInsert_salesLE_pairwise
    · exact ih (List.pairwise_cons.mp h).2
    · intro b hb
      exact (List.pairwise_cons.mp h).1 b
        ((List.perm_insertionSort salesLE t).mem_iff.mp hb)

theorem catKeys_sorted (df : Dataset) : (catKeys df).Pairwise keyLE :=
  List.sorted_insertionSort keyLE _

theorem catKeys_nodup (df : Dataset) : (catKeys df).Nodup :=
  ((List.perm_insertionSort keyLE _).nodup_iff).mpr (List.nodup_dedup _)

theorem catKeys_pairwise_keyLT (df : Dataset) : (catKeys df).Pairwise keyLT :=
  ((catKeys_sorted df).and (catKeys_nodup df)).imp
    (fun hab => hab.1.resolve_right hab.2)

theorem cat_grouped_pairwise (df : Dataset) :
    (cat_grouped df).Pairwise (fun a b => keyLT a.1 b.1) := by
  unfold cat_grouped
  rw [List.pairwise_map]
  exact catKeys_pairwise_keyLT df

theorem cat_rows_perm (df df' : Dataset) (h : List.Perm df.rows df'.rows) :
    cat df = cat df' := by
  have hkeys : catKeys df = catKeys df' := by
    unfold catKeys
    refine List.eq_of_perm_of_sorted ?_
      (List.sorted_insertionSort keyLE _) (List.sorted_insertionSort keyLE _)
    exact ((List.perm_insertionSort keyLE _).trans ((h.map catKey).dedup)).trans
      (List.perm_insertionSort keyLE _).symm
  have hsum : ∀ k, catSum df k = catSum df' k := by
    intro k
    unfold catSum
    exact List.Perm.sum_eq ((List.Perm.filter _ h).map _)
  have hmap : (catKeys df').map (fun k => (k, catSum df k))
      = (catKeys df').map (fun k => (k, catSum df' k)) :=
    List.map_congr_left (fun k _ => by rw [hsum k])
  unfold cat cat_grouped
  rw [hkeys, hmap]

/-- C3 (counterexample): two groups with equal summed sales, encountered
A-x before B-y.  The code's descending sort emits them in reverse grouped
order, while the claimed stable descending sort would keep encounter order,
so the top-subcategories result differs from the claimed one. -/
theorem c3_counterexample_unstable_ties :
    cat df3 = [(("B", "y"), 5), (("A", "x"), 5)]
    ∧ topSubcatsSpec df3 = [(("A", "x"), 5), (("B", "y"), 5)]
    ∧ cat df3 ≠ topSubcatsSpec df3 := by decide

/-- C3 (amended): the top-subcategories result has at most 20 rows, is sorted
in non-increasing order of summed sales, and is invariant under any reordering
of the input rows (in particular reordering within the same groups); however
ties between equal summed-sales groups appear in REVERSE grouped-key order
(the descending sort is a reversed ascending sort, not a stable descending
sort in encounter order). -/
theorem c3_top_subcategories (df : Dataset)
    (h1 : "category" ∈ df.cols) (h2 : "sub_category" ∈ df.cols) (h3 : "sales" ∈ df.cols) :
    (cat df).length ≤ 20
    ∧ (cat df).Pairwise (fun a b => b.2 ≤ a.2)
    ∧ (cat df).Pairwise (fun a b => salesThenKey b a)
    ∧ ∀ df' : Dataset, List.Perm df.rows df'.rows → cat df = cat df' := by
  have hpw : (List.insertionSort salesLE (cat_grouped df)).Pairwise salesThenKey :=
    insertionSort_salesLE_pairwise _ (cat_grouped_pairwise df)
  have hrev : ((List.insertionSort salesLE (cat_grouped df)).reverse).Pairwise
      (fun a b => salesThenKey b a) := List.pairwise_reverse.mpr hpw
  have htake : (cat df).Pairwise (fun a b => salesThenKey b a) := by
    unfold cat
    exact List.Pairwise.sublist (List.take_sublist _ _) hrev
  refine ⟨?_, ?_, htake, fun df' h => cat_rows_perm df df' h⟩
  · simp [cat, List.length_take]
  · refine htake.imp (fun hab => ?_)
    unfold salesThenKey at hab
    rcases hab with h | ⟨h, _⟩
    · exact le_of_lt h
    · exact le_of_eq h

/-- Witness for C3's amended statement: a concrete dataset, and a reordering
of its rows within the same groups leaving the result unchanged. -/
theorem c3_top_subcategories_witness :
    (cat dfW).length ≤ 20 ∧ cat dfW = cat dfW2 :=
  ⟨(c3_top_subcategories dfW (by decide) (by decide) (by decide)).1,
   (c3_top_subcategories dfW (by decide) (by decide) (by decide)).2.2.2 dfW2 (by decide)⟩

/-- Witness for C4's amended statement: the concrete all-recipes run with a
scan that returns production order. -/
theorem c4_sections_follow_scan_order_witness :
    (vizStage df4).1 = ["ventas_por_mes.html", "top_subcategorias.html", "ventas_por_region.html"]
    ∧ (run df4 scanId).dashboard =
        some (ReportSection.kpiBlock (kpis df4) ::
          (scanId (vizStage df4).1).map (fun f => ReportSection.chart (chartTitle f) f))
    ∧ (scanId (vizStage df4).1).length = 3 :=
  c4_sections_follow_scan_order df4 scanId (by decide) (by decide) (by decide) (by decide)
    (by decide) (by decide) (by decide)

end Superstore
